import Mathlib

/-!
Verification of the hexabase-ai orchestrator (`ai-ops/app/agents/orchestrator.py`,
`ai-ops/app/agents/tools.py`) and the SDK auto-cleanup policy engine
(`sdk/python/hexabase_ai/functions/functions.py`) against the repository
specification.

JSON values produced by `json.loads` / `response.json()` are modelled by `JVal`;
Python dictionaries are association lists in insertion order with unique keys.
Timestamps are modelled in minutes since an arbitrary epoch, so that
`timedelta(hours = h)` is `60 * h`.
-/

/-- A parsed JSON value (the result of Python `json.loads` or `response.json()`). -/
inductive JVal where
  | null : JVal
  | bool : Bool → JVal
  | num : Int → JVal
  | str : String → JVal
  | arr : List JVal → JVal
  | obj : List (String × JVal) → JVal
deriving Repr

/-- Python truthiness of a parsed JSON value (`if not x:`). -/
def jvalTruthy : JVal → Bool
  | .null => false
  | .bool b => b
  | .num n => n != 0
  | .str s => s.length != 0
  | .arr xs => xs.length != 0
  | .obj d => d.length != 0

/-- Python `len(x)` on a parsed JSON value; `none` models a `TypeError`. -/
def pyLen : JVal → Option Nat
  | .arr xs => some xs.length
  | .obj d => some d.length
  | .str s => some s.length
  | _ => none

/-- Python iteration over a parsed JSON value (`for x in v`); iterating a dict
yields its keys; `none` models a `TypeError`. -/
def pyIter : JVal → Option (List JVal)
  | .arr xs => some xs
  | .obj d => some (d.map (fun p => JVal.str p.1))
  | .str s => some (s.toList.map (fun c => JVal.str (String.mk [c])))
  | _ => none

mutual
/-- Python `repr` of a parsed JSON value (used by f-strings on containers). -/
def pyRepr : JVal → String
  | .null => "None"
  | .bool true => "True"
  | .bool false => "False"
  | .num n => toString n
  | .str s => "\x27" ++ s ++ "\x27"
  | .arr xs => "[" ++ pyReprList xs ++ "]"
  | .obj d => "\x7b" ++ pyReprFields d ++ "\x7d"

/-- Comma-separated `repr` of list elements. -/
def pyReprList : List JVal → String
  | [] => ""
  | [x] => pyRepr x
  | x :: y :: xs => pyRepr x ++ ", " ++ pyReprList (y :: xs)

/-- Comma-separated `repr` of dict entries. -/
def pyReprFields : List (String × JVal) → String
  | [] => ""
  | [(k, v)] => "\x27" ++ k ++ "\x27: " ++ pyRepr v
  | (k, v) :: f :: fs => "\x27" ++ k ++ "\x27: " ++ pyRepr v ++ ", " ++ pyReprFields (f :: fs)
end

/-- Python `str()` of a parsed JSON value, as used inside f-strings. -/
def pyStr : JVal → String
  | .str s => s
  | v => pyRepr v

/-- Python dict item assignment `d[k] = v`: overwrite in place when the key is
present (insertion order kept), append otherwise. -/
def dictSet (d : List (String × JVal)) (k : String) (v : JVal) : List (String × JVal) :=
  if (d.lookup k).isSome then d.map (fun p => if p.1 == k then (k, v) else p)
  else d ++ [(k, v)]

/-! ## Cleanup policy engine (`AutoCleanupManager`) -/

/-- Model of `CleanupPolicy` (`models.py`): three independently optional conditions. -/
structure CleanupPolicy where
  ttl_hours : Option Nat
  max_executions : Option Nat
  idle_hours : Option Nat
deriving Repr, DecidableEq

/-- The live metadata returned by `client.get_function`:
`created_at` timestamp, optional `execution_count` (read with default 0),
optional `last_executed_at` (presence-tested with `in`). Times in minutes. -/
structure FunctionInfo where
  created_at : Nat
  execution_count : Option Nat
  last_executed_at : Option Nat
deriving Repr, DecidableEq

/-- Outcome of `await client.get_function(fid)`. -/
inductive FetchResult where
  | found : FunctionInfo → FetchResult
  | notFound : FetchResult
  | raised : FetchResult
deriving Repr, DecidableEq

/-- Python truthiness of an `Optional[int]` policy field (`if policy.ttl_hours:`). -/
def optTruthy (o : Option Nat) : Bool := o.getD 0 != 0

/-- The policy checks of `AutoCleanupManager._should_delete_function` after a
successful metadata fetch: TTL, then execution count, then idle time, each
returning `True` as soon as it fires. -/
def shouldDelete (now : Nat) (policy : CleanupPolicy) (info : FunctionInfo) : Bool :=
  if optTruthy policy.ttl_hours ∧ info.created_at + 60 * policy.ttl_hours.getD 0 < now then
    true
  else if optTruthy policy.max_executions ∧
      policy.max_executions.getD 0 ≤ info.execution_count.getD 0 then
    true
  else if optTruthy policy.idle_hours ∧ info.last_executed_at.isSome ∧
      info.last_executed_at.getD 0 + 60 * policy.idle_hours.getD 0 < now then
    true
  else
    false

/-- The engine's mutable registry `_registered_functions` (a Python dict,
insertion order, unique keys). -/
structure CleanupState where
  registered : List (String × CleanupPolicy)
deriving Repr, DecidableEq

/-- Model of `AutoCleanupManager.register_function`: dict upsert. -/
def registerFunction (st : CleanupState) (fid : String) (policy : CleanupPolicy) :
    CleanupState :=
  if (st.registered.lookup fid).isSome then
    ⟨st.registered.map (fun q => if q.1 == fid then (fid, policy) else q)⟩
  else ⟨st.registered ++ [(fid, policy)]⟩

/-- Model of `AutoCleanupManager.unregister_function`: idempotent dict removal. -/
def unregisterFunction (st : CleanupState) (fid : String) : CleanupState :=
  ⟨st.registered.filter (fun q => q.1 != fid)⟩

/-- The remote function API as seen by the engine. `delete_function fid = false`
models the delete call raising. -/
structure CleanupEnv where
  get_function : String → FetchResult
  delete_function : String → Bool

/-- Result of the policy check: `ok b` is a normal return, `raised` an
exception escaping `_should_delete_function` into the caller's handler. -/
inductive CheckResult where
  | ok : Bool → CheckResult
  | raised : CheckResult
deriving Repr, DecidableEq

/-- Model of `AutoCleanupManager._should_delete_function`: fetch metadata; on
`FunctionNotFoundError` unregister locally and return `False`; on another
exception let it propagate; otherwise run the policy checks. -/
def shouldDeleteFunction (env : CleanupEnv) (now : Nat) (st : CleanupState)
    (fid : String) (policy : CleanupPolicy) : CheckResult × CleanupState :=
  match env.get_function fid with
  | .found info => (.ok (shouldDelete now policy info), st)
  | .notFound => (.ok false, unregisterFunction st fid)
  | .raised => (.raised, st)

/-- Accumulated outcome of one `cleanup_expired_functions` run: the returned
`deleted_functions` set (as an insertion-ordered list), the registry state, and
the delete calls issued to the remote API. -/
structure CleanupOutcome where
  deleted : List String
  state : CleanupState
  deleteCalls : List String
deriving Repr, DecidableEq

/-- One iteration of the `for function_id, policy in list(...)` loop of
`cleanup_expired_functions`: check, then delete / record / unregister on
success; any exception is caught, logged and the loop continues. -/
def cleanupStep (env : CleanupEnv) (now : Nat) (acc : CleanupOutcome)
    (item : String × CleanupPolicy) : CleanupOutcome :=
  match shouldDeleteFunction env now acc.state item.1 item.2 with
  | (.raised, st) => { acc with state := st }
  | (.ok false, st) => { acc with state := st }
  | (.ok true, st) =>
    if env.delete_function item.1 then
      { deleted := acc.deleted ++ [item.1],
        state := unregisterFunction st item.1,
        deleteCalls := acc.deleteCalls ++ [item.1] }
    else
      { acc with state := st, deleteCalls := acc.deleteCalls ++ [item.1] }

/-- Model of `AutoCleanupManager.cleanup_expired_functions` (the spec's `evaluate_all()`):
fold the loop body over a snapshot of the registry taken at entry. -/
def cleanupExpiredFunctions (env : CleanupEnv) (now : Nat) (st : CleanupState) :
    CleanupOutcome :=
  st.registered.foldl (cleanupStep env now) ⟨[], st, []⟩

/-- Spec-side reading of the TTL condition: set and exceeded. -/
def ttlConditionMet (now : Nat) (policy : CleanupPolicy) (info : FunctionInfo) : Bool :=
  optTruthy policy.ttl_hours && decide (info.created_at + 60 * policy.ttl_hours.getD 0 < now)

/-- Spec-side reading of the execution-count condition: set and reached. -/
def execConditionMet (policy : CleanupPolicy) (info : FunctionInfo) : Bool :=
  optTruthy policy.max_executions &&
    decide (policy.max_executions.getD 0 ≤ info.execution_count.getD 0)

/-- Spec-side reading of the idle-time condition: set, metadata has a last
execution time, and it is exceeded. -/
def idleConditionMet (now : Nat) (policy : CleanupPolicy) (info : FunctionInfo) : Bool :=
  optTruthy policy.idle_hours && info.last_executed_at.isSome &&
    decide (info.last_executed_at.getD 0 + 60 * policy.idle_hours.getD 0 < now)

/-! ## Orchestrator (`OrchestratorAgent` and the tool registry) -/

/-- The three tools of `TOOL_REGISTRY` (`tools.py`). -/
inductive Tool where
  | getKubernetesNodes : Tool
  | scaleDeployment : Tool
  | queryLogs : Tool
deriving Repr, DecidableEq

/-- The `name` class attribute of each tool. -/
def Tool.name : Tool → String
  | .getKubernetesNodes => "get_kubernetes_nodes"
  | .scaleDeployment => "scale_deployment"
  | .queryLogs => "query_logs"

/-- Model of `TOOL_REGISTRY`, in source order. -/
def TOOL_REGISTRY : List Tool := [.getKubernetesNodes, .scaleDeployment, .queryLogs]

/-- Model of `self.tools`, built from `TOOL_REGISTRY` in insertion order. -/
def toolsDict : List (String × Tool) := TOOL_REGISTRY.map (fun t => (t.name, t))

/-- Model of `list(self.tools.keys())`. -/
def toolNames : List String := toolsDict.map (fun p => p.1)

/-- What `llm_client.predict` hands back: a dict (real API) or a string (mocks). -/
inductive LLMReply where
  | dict : List (String × JVal) → LLMReply
  | str : String → LLMReply
deriving Repr

/-- Python `str(llm_response)`, used for the `raw_response` diagnostic field. -/
def llmRaw : LLMReply → String
  | .dict d => pyRepr (.obj d)
  | .str s => s

/-- The collaborator `json.loads`, abstracted: `none` models a
`json.JSONDecodeError` being raised. -/
structure SelectEnv where
  jsonLoads : String → Option JVal

/-- Exceptions that the `try` block of `select_tool` (and the input-model
construction in `run`) can raise. -/
inductive PyExc where
  | jsonDecode : PyExc
  | keyError : String → PyExc
  | typeError : PyExc
  | attributeError : PyExc
deriving Repr, DecidableEq

/-- Python `v[k]` on a parsed JSON value: `KeyError` when the key is absent
from a dict, `TypeError` when `v` is not a dict (string-key subscript). -/
def subscript (v : JVal) (k : String) : Except PyExc JVal :=
  match v with
  | .obj d =>
    match d.lookup k with
    | some x => .ok x
    | none => .error (.keyError k)
  | _ => .error .typeError

/-- Lift of `json.loads` into the exception monad. -/
def jsonLoadsE (env : SelectEnv) (s : String) : Except PyExc JVal :=
  match env.jsonLoads s with
  | some v => .ok v
  | none => .error .jsonDecode

/-- The error tuple `select_tool` returns for a `tool_name` that is not a
registry key: message plus the full list of valid tool names. -/
def invalidToolDetail (tool_name : JVal) : List (String × JVal) :=
  [("message", JVal.str ("The AI selected an invalid tool: \x27" ++ pyStr tool_name ++ "\x27")),
   ("available_tools", JVal.arr (toolNames.map JVal.str))]

/-- CPython hashability of a parsed JSON value: lists and dicts are
unhashable, so using one as the key of a dict-membership test
(`tool_name not in self.tools`) raises `TypeError`; strings, numbers,
booleans and `None` are hashable. -/
def pyHashable : JVal → Bool
  | .arr _ => false
  | .obj _ => false
  | _ => true

/-- The tail of `select_tool` once `response_data` is in hand: extract
`tool_name` and `tool_input`, test the name against the registry (an
unhashable `tool_name` makes the membership test itself raise `TypeError`;
hashable non-string values are simply not keys), then inject the caller's
`workspace_id` into the tool input. -/
def finishSelect (response_data : JVal) (workspace_id : String) :
    Except PyExc (String × List (String × JVal)) :=
  (subscript response_data "tool_name").bind fun tool_name =>
  (subscript response_data "tool_input").bind fun tool_input =>
  match tool_name with
  | .str name =>
    if (toolsDict.lookup name).isSome then
      match tool_input with
      | .obj ti => .ok (name, dictSet ti "workspace_id" (JVal.str workspace_id))
      | _ => .error .typeError
    else .ok ("error", invalidToolDetail tool_name)
  | .arr _ => .error .typeError
  | .obj _ => .error .typeError
  | _ => .ok ("error", invalidToolDetail tool_name)

/-- The `try` block of `OrchestratorAgent.select_tool`: branch on the shape of
the language-model reply, recover `response_data`, then `finishSelect`. -/
def selectToolBody (env : SelectEnv) (resp : LLMReply) (workspace_id : String) :
    Except PyExc (String × List (String × JVal)) :=
  match resp with
  | .dict d =>
    match d.lookup "error" with
    | some errv =>
      .ok ("error", [("message", JVal.str "The AI model encountered an error"),
                     ("detail", errv)])
    | none =>
      (match d.lookup "response" with
       | some (.str s) => jsonLoadsE env s
       | some _ => .error .typeError
       | none => .ok (.obj d)).bind
      (fun response_data => finishSelect response_data workspace_id)
  | .str s =>
    (jsonLoadsE env s).bind (fun response_data => finishSelect response_data workspace_id)

/-- Representative texts of exception objects (`str(e)`); the exact wording is
interpreter detail and nothing in the claims depends on it. -/
def jsonDecodeText : String := "Expecting value: line 1 column 1 (char 0)"

/-- Representative `str(e)` for a `TypeError`. -/
def typeErrorText : String := "unsupported operand type"

/-- Representative `str(e)` for an `AttributeError` raised by calling `.get`
on a non-dict value; exact wording is interpreter detail. -/
def attributeErrorText : String := "\x27str\x27 object has no attribute \x27get\x27"

/-- Model of `OrchestratorAgent.select_tool`: the `try` body with its three `except`
handlers, each returning the `("error", detail)` tuple from the source. -/
def selectTool (env : SelectEnv) (resp : LLMReply) (workspace_id : String) :
    String × List (String × JVal) :=
  match selectToolBody env resp workspace_id with
  | .ok r => r
  | .error .jsonDecode =>
    ("error", [("message", JVal.str "The AI model produced invalid JSON"),
               ("detail", JVal.str jsonDecodeText),
               ("raw_response", JVal.str (llmRaw resp))])
  | .error (.keyError k) =>
    ("error", [("message", JVal.str ("The AI model response is missing required field: \x27" ++ k ++ "\x27")),
               ("detail", JVal.str ("\x27" ++ k ++ "\x27"))])
  | .error .typeError =>
    ("error", [("message", JVal.str "An unexpected error occurred while processing the AI response"),
               ("detail", JVal.str typeErrorText),
               ("type", JVal.str "TypeError")])
  | .error .attributeError =>
    ("error", [("message", JVal.str "An unexpected error occurred while processing the AI response"),
               ("detail", JVal.str attributeErrorText),
               ("type", JVal.str "AttributeError")])

/-! ## Tool execution (`tools.py`) and `OrchestratorAgent.run` -/

/-- Model of `GetKubernetesNodesInput` (pydantic). -/
structure GetKubernetesNodesInput where
  workspace_id : String
deriving Repr, DecidableEq

/-- Model of `ScaleDeploymentInput` (pydantic). -/
structure ScaleDeploymentInput where
  workspace_id : String
  deployment_name : String
  replicas : Int
deriving Repr, DecidableEq

/-- Model of `LogQueryInput` (pydantic; optional fields default to `None`,
`limit` defaults to `100`). -/
structure LogQueryInput where
  workspace_id : String
  search_term : Option String
  level : Option String
  start_time : Option String
  end_time : Option String
  limit : Int
deriving Repr, DecidableEq

/-- A constructed tool-input instance, tagged by its pydantic class. -/
inductive ToolInputModel where
  | nodes : GetKubernetesNodesInput → ToolInputModel
  | scale : ScaleDeploymentInput → ToolInputModel
  | logq : LogQueryInput → ToolInputModel
deriving Repr, DecidableEq

/-- pydantic v1 coercion into a `str` field (strings pass, numbers and bools
are stringified, everything else is a validation error). -/
def validateStr : JVal → Option String
  | .str s => some s
  | .num n => some (toString n)
  | .bool true => some "True"
  | .bool false => some "False"
  | _ => none

/-- pydantic v1 coercion into an `int` field. -/
def validateInt : JVal → Option Int
  | .num n => some n
  | .bool b => some (if b then 1 else 0)
  | .str s => s.toInt?
  | _ => none

/-- A required `str` field: absent or uncoercible means the constructor raises. -/
def reqStr (d : List (String × JVal)) (k : String) : Option String :=
  (d.lookup k).bind validateStr

/-- A required `int` field. -/
def reqInt (d : List (String × JVal)) (k : String) : Option Int :=
  (d.lookup k).bind validateInt

/-- An `Optional[str] = None` field: absent or `null` is `None`. -/
def optStr (d : List (String × JVal)) (k : String) : Option (Option String) :=
  match d.lookup k with
  | none => some none
  | some .null => some none
  | some v => (validateStr v).map some

/-- An `int = 100`-style field with a default. -/
def defInt (d : List (String × JVal)) (k : String) (dflt : Int) : Option Int :=
  match d.lookup k with
  | none => some dflt
  | some v => validateInt v

/-- The name-to-class dict `tool_input_models` built inside `run`. -/
inductive InputModelClass where
  | nodesClass : InputModelClass
  | scaleClass : InputModelClass
  | logClass : InputModelClass
deriving Repr, DecidableEq

/-- Model of the dict `tool_input_models`, in source order. -/
def tool_input_models : List (String × InputModelClass) :=
  [("get_kubernetes_nodes", .nodesClass),
   ("scale_deployment", .scaleClass),
   ("query_logs", .logClass)]

/-- Model of `input_model_class(**tool_input_dict)`: pydantic construction with
extra keys ignored; `none` models a raised `ValidationError`. -/
def constructInput (cls : InputModelClass) (d : List (String × JVal)) :
    Option ToolInputModel :=
  match cls with
  | .nodesClass => (reqStr d "workspace_id").map (fun w => .nodes ⟨w⟩)
  | .scaleClass => do
    let w ← reqStr d "workspace_id"
    let dn ← reqStr d "deployment_name"
    let r ← reqInt d "replicas"
    pure (.scale ⟨w, dn, r⟩)
  | .logClass => do
    let w ← reqStr d "workspace_id"
    let st ← optStr d "search_term"
    let lv ← optStr d "level"
    let t0 ← optStr d "start_time"
    let t1 ← optStr d "end_time"
    let lim ← defInt d "limit" 100
    pure (.logq ⟨w, st, lv, t0, t1, lim⟩)

/-- The HTTP requests a tool can issue against the internal cluster API. -/
inductive ApiCall where
  | getNodes : String → ApiCall
  | scaleDeployment : String → String → Int → ApiCall
  | queryLogs : List (String × JVal) → ApiCall
deriving Repr

/-- Transport outcome of one HTTP request: a 2xx with a parsed JSON body; a
non-2xx (`raise_for_status` raises `HTTPStatusError`) with its status and
`some` parsed JSON body or `none` when the body is not valid JSON (so a later
`e.response.json()` raises `JSONDecodeError`); or any other exception
(transport failure etc.). -/
inductive HttpOutcome where
  | success : JVal → HttpOutcome
  | httpStatusError : Nat → Option JVal → HttpOutcome
  | exc : HttpOutcome
deriving Repr

/-- Model of `e.response.json().get("error", "unknown error")` inside the
`except HTTPStatusError` handler: a JSON-object body yields the detail string;
a non-JSON body raises `JSONDecodeError` from `.json()` and a non-object JSON
body raises `AttributeError` from `.get` — both from inside the handler, so
the sibling `except Exception` does not catch them and they escape `use`. -/
def upstreamErrorDetail : Option JVal → Except PyExc String
  | some (.obj d) => .ok (pyStr ((d.lookup "error").getD (JVal.str "unknown error")))
  | some _ => .error .attributeError
  | none => .error .jsonDecode

/-- Representative `str(e)` for a transport-level exception. -/
def transportErrorText : String := "connection error"

/-- Python `str.strip()`: drop leading and trailing whitespace. -/
def pyStrip (s : String) : String :=
  String.mk (((s.toList.dropWhile Char.isWhitespace).reverse.dropWhile
    Char.isWhitespace).reverse)

/-- One formatted line of `GetKubernetesNodesTool.use`; `none` models the
`AttributeError` from `node.get` on a non-dict element. -/
def nodeLine (node : JVal) : Option String :=
  match node with
  | .obj d =>
    some ("- Node \x27" ++ pyStr ((d.lookup "name").getD .null) ++ "\x27 is " ++
          pyStr ((d.lookup "status").getD .null) ++ ".\n")
  | _ => none

/-- The summary loop of `GetKubernetesNodesTool.use`. -/
def formatNodeLines : List JVal → Option String
  | [] => some ""
  | n :: ns =>
    match nodeLine n, formatNodeLines ns with
    | some s, some rest => some (s ++ rest)
    | _, _ => none

/-- Model of `GetKubernetesNodesTool.use`: GET the node list, format a summary;
all exceptions inside the `try` collapse into the tool's error strings, and
its `HTTPStatusError` handler reads nothing from the body, so this tool never
raises (`Except.error` is unreachable but the type matches the other tools). -/
def getNodesUse (http : ApiCall → HttpOutcome) (i : GetKubernetesNodesInput) :
    Except PyExc String × List ApiCall :=
  let call := ApiCall.getNodes i.workspace_id
  (match http call with
   | .success nodes =>
     if jvalTruthy nodes = false then
       .ok ("No nodes found for workspace " ++ i.workspace_id ++ ".")
     else
       (match pyLen nodes, pyIter nodes with
        | some n, some items =>
          match formatNodeLines items with
          | some lines =>
            .ok (pyStrip ("Found " ++ toString n ++ " nodes for workspace " ++
              i.workspace_id ++ ".\n" ++ lines))
          | none =>
            .ok ("Error: An unexpected error occurred while fetching node data: " ++
              attributeErrorText)
        | _, _ =>
          .ok ("Error: An unexpected error occurred while fetching node data: " ++
            typeErrorText))
   | .httpStatusError status _ =>
     .ok ("Error: Could not retrieve node data. The API returned a " ++
       toString status ++ " status.")
   | .exc =>
     .ok ("Error: An unexpected error occurred while fetching node data: " ++
       transportErrorText),
   [call])

/-- Model of `ScaleDeploymentTool.use`: POST the scale request and report; the
`HTTPStatusError` handler itself can raise through `upstreamErrorDetail`. -/
def scaleUse (http : ApiCall → HttpOutcome) (i : ScaleDeploymentInput) :
    Except PyExc String × List ApiCall :=
  let call := ApiCall.scaleDeployment i.workspace_id i.deployment_name i.replicas
  (match http call with
   | .success _ =>
     .ok ("Successfully scaled deployment \x27" ++ i.deployment_name ++ "\x27 to " ++
       toString i.replicas ++ " replicas.")
   | .httpStatusError status body =>
     (upstreamErrorDetail body).map (fun detail =>
       "Error: Could not scale deployment. The API returned a " ++ toString status ++
         " status: " ++ detail)
   | .exc =>
     .ok ("Error: An unexpected error occurred while scaling deployment: " ++
       transportErrorText),
   [call])

/-- Model of `input_data.dict(exclude_none=True)`: the log-query payload, fields in
declaration order with `None` entries dropped. -/
def logPayload (i : LogQueryInput) : List (String × JVal) :=
  [("workspace_id", JVal.str i.workspace_id)] ++
  (match i.search_term with | some s => [("search_term", JVal.str s)] | none => []) ++
  (match i.level with | some s => [("level", JVal.str s)] | none => []) ++
  (match i.start_time with | some s => [("start_time", JVal.str s)] | none => []) ++
  (match i.end_time with | some s => [("end_time", JVal.str s)] | none => []) ++
  [("limit", JVal.num i.limit)]

/-- One formatted line of `LogQueryingTool.use`; `none` models the
`AttributeError` from `log.get` on a non-dict loop element. -/
def logLine (lg : JVal) : Option String :=
  match lg with
  | .obj d =>
    some ("- [" ++ pyStr ((d.lookup "timestamp").getD .null) ++ "] [" ++
          pyStr ((d.lookup "level").getD .null) ++ "] " ++
          pyStr ((d.lookup "message").getD .null) ++ "\n")
  | _ => none

/-- The summary loop of `LogQueryingTool.use`. -/
def formatLogLines : List JVal → Option String
  | [] => some ""
  | l :: ls =>
    match logLine l, formatLogLines ls with
    | some s, some rest => some (s ++ rest)
    | _, _ => none

/-- Model of `LogQueryingTool.use`: POST the query payload, then format
`"Found N log entries"` with one line per entry, the no-results message when
the body is falsy, or the tool's error strings. -/
def logQueryUse (http : ApiCall → HttpOutcome) (i : LogQueryInput) :
    Except PyExc String × List ApiCall :=
  let call := ApiCall.queryLogs (logPayload i)
  (match http call with
   | .success logs =>
     if jvalTruthy logs = false then
       .ok ("No logs found for workspace " ++ i.workspace_id ++
         " with the given criteria.")
     else
       (match pyLen logs, pyIter logs with
        | some n, some items =>
          match formatLogLines items with
          | some lines =>
            .ok (pyStrip ("Found " ++ toString n ++ " log entries:\n" ++ lines))
          | none =>
            .ok ("Error: An unexpected error occurred while querying logs: " ++
              attributeErrorText)
        | _, _ =>
          .ok ("Error: An unexpected error occurred while querying logs: " ++
            typeErrorText))
   | .httpStatusError status body =>
     (upstreamErrorDetail body).map (fun detail =>
       "Error: Could not query logs. The API returned a " ++ toString status ++
         " status: " ++ detail)
   | .exc =>
     .ok ("Error: An unexpected error occurred while querying logs: " ++
       transportErrorText),
   [call])

/-- Model of `tool.use(input_model)`: dispatch to the tool matching the
constructed input model, returning the result (or the exception escaping the
tool's handlers) and the API calls issued. -/
def toolUse (http : ApiCall → HttpOutcome) :
    ToolInputModel → Except PyExc String × List ApiCall
  | .nodes i => getNodesUse http i
  | .scale i => scaleUse http i
  | .logq i => logQueryUse http i

/-- Representative `str(e)` of a pydantic `ValidationError`. -/
def validationErrorText : String := "validation error for tool input"

/-- Model of `OrchestratorAgent.run`: select a tool, reject the sentinel or
unknown names, build the pydantic input (errors become the invalid-input
string), then execute the tool with no surrounding `try`, so an exception
raised by `tool.use` escapes `run`. `Except.error` models an exception
escaping `run`; the second component records the cluster-API calls issued. -/
def run (senv : SelectEnv) (http : ApiCall → HttpOutcome) (resp : LLMReply)
    (workspace_id : String) : Except PyExc (String × List ApiCall) :=
  let sel := selectTool senv resp workspace_id
  let tool_name := sel.1
  let tool_input_dict := sel.2
  if (toolNames.contains tool_name) = false then
    .ok ("Error: The AI selected an invalid tool (\x27" ++ tool_name ++ "\x27).", [])
  else
    match toolsDict.lookup tool_name with
    | none => .error (.keyError tool_name)
    | some tool =>
      match tool_input_models.lookup tool.name with
      | none =>
        .ok ("Error: Could not find input model for tool \x27" ++ tool.name ++
             "\x27. Available tools: [\x27get_kubernetes_nodes\x27, \x27scale_deployment\x27, \x27query_logs\x27]", [])
      | some cls =>
        match constructInput cls tool_input_dict with
        | none =>
          .ok ("Error: Invalid input for tool \x27" ++ tool.name ++ "\x27: " ++
               validationErrorText, [])
        | some im =>
          match toolUse http im with
          | (.ok s, calls) => .ok (s, calls)
          | (.error e, _) => .error e

/-! ## Helper lemmas on association lists -/

/-- Looking up a key other than the removed one is unchanged by dict removal. -/
theorem lookup_filter_ne {α : Type} (l : List (String × α)) (k g : String) (h : k ≠ g) :
    (l.filter (fun q => q.1 != g)).lookup k = l.lookup k := by
  have hkg : (k == g) = false := beq_eq_false_iff_ne.mpr h
  induction l with
  | nil => simp
  | cons a t ih =>
    by_cases hag : a.1 = g
    · simp [List.filter_cons, hag, List.lookup, hkg, ih]
    · have ha : (a.1 != g) = true := by simpa using hag
      simp [List.filter_cons, ha, List.lookup, ih]

/-- Looking up the removed key after dict removal yields nothing. -/
theorem lookup_filter_self {α : Type} (l : List (String × α)) (g : String) :
    (l.filter (fun q => q.1 != g)).lookup g = none := by
  induction l with
  | nil => simp
  | cons a t ih =>
    by_cases hag : a.1 = g
    · simp [List.filter_cons, hag, ih]
    · have ha : (a.1 != g) = true := by simpa using hag
      have hk : (g == a.1) = false := beq_eq_false_iff_ne.mpr (fun he => hag he.symm)
      simp [List.filter_cons, ha, List.lookup, hk, ih]

/-- A successful dict lookup exhibits a member. -/
theorem mem_of_lookup_eq_some {α : Type} (l : List (String × α)) (k : String) (v : α)
    (h : l.lookup k = some v) : (k, v) ∈ l := by
  induction l with
  | nil => simp at h
  | cons a t ih =>
    obtain ⟨a1, a2⟩ := a
    by_cases hk : k = a1
    · simp only [List.lookup, show (k == a1) = true by simpa using hk] at h
      injection h with h2
      subst hk
      subst h2
      exact List.mem_cons_self _ _
    · simp only [List.lookup, show (k == a1) = false by simpa using hk] at h
      exact List.mem_cons_of_mem _ (ih h)

/-- The sequential checks of `_should_delete_function` compute exactly the
disjunction of the three spec-side conditions. -/
theorem shouldDelete_eq_or (now : Nat) (policy : CleanupPolicy) (info : FunctionInfo) :
    shouldDelete now policy info =
      (ttlConditionMet now policy info || execConditionMet policy info ||
        idleConditionMet now policy info) := by
  unfold shouldDelete ttlConditionMet execConditionMet idleConditionMet
  split_ifs with h1 h2 h3 <;> simp_all

/-- Claim C4: after a successful metadata fetch, the cleanup decision is the
short-circuit check of TTL, then execution count, then idle time, and equals
the disjunction of the set-and-satisfied conditions (OR semantics; unset
conditions are skipped and later ones still checked). -/
theorem C4_or_semantics (env : CleanupEnv) (now : Nat) (st : CleanupState)
    (fid : String) (policy : CleanupPolicy) (info : FunctionInfo)
    (hget : env.get_function fid = .found info) :
    shouldDeleteFunction env now st fid policy =
      (.ok (ttlConditionMet now policy info || execConditionMet policy info ||
            idleConditionMet now policy info), st) := by
  simp [shouldDeleteFunction, hget, shouldDelete_eq_or]

theorem C4_or_semantics_witness :
    shouldDeleteFunction ⟨fun _ => .found ⟨0, some 7, none⟩, fun _ => true⟩ 50 ⟨[]⟩
        "fn" ⟨none, some 5, some 1⟩ =
      (.ok (ttlConditionMet 50 ⟨none, some 5, some 1⟩ ⟨0, some 7, none⟩ ||
            execConditionMet ⟨none, some 5, some 1⟩ ⟨0, some 7, none⟩ ||
            idleConditionMet 50 ⟨none, some 5, some 1⟩ ⟨0, some 7, none⟩), ⟨[]⟩) :=
  C4_or_semantics ⟨fun _ => .found ⟨0, some 7, none⟩, fun _ => true⟩ 50 ⟨[]⟩
    "fn" ⟨none, some 5, some 1⟩ ⟨0, some 7, none⟩ rfl

/-- Claim C3: under a policy with only `ttl_hours = 1`, a function whose
`created_at` is 2 hours (120 minutes) before the evaluation time is deleted by
`cleanup_expired_functions` and returned in the deleted set, while one created
30 minutes before the evaluation time is not deleted and not returned. -/
theorem C3_ttl_eviction (envOld envNew : CleanupEnv) (now : Nat) (fid : String)
    (infoOld infoNew : FunctionInfo)
    (hgetOld : envOld.get_function fid = .found infoOld)
    (hdelOld : envOld.delete_function fid = true)
    (hOld : infoOld.created_at + 120 = now)
    (hgetNew : envNew.get_function fid = .found infoNew)
    (hNew : infoNew.created_at + 30 = now) :
    (fid ∈ (cleanupExpiredFunctions envOld now ⟨[(fid, ⟨some 1, none, none⟩)]⟩).deleted ∧
     fid ∈ (cleanupExpiredFunctions envOld now ⟨[(fid, ⟨some 1, none, none⟩)]⟩).deleteCalls ∧
     (cleanupExpiredFunctions envOld now
        ⟨[(fid, ⟨some 1, none, none⟩)]⟩).state.registered.lookup fid = none) ∧
    (fid ∉ (cleanupExpiredFunctions envNew now ⟨[(fid, ⟨some 1, none, none⟩)]⟩).deleted ∧
     fid ∉ (cleanupExpiredFunctions envNew now
        ⟨[(fid, ⟨some 1, none, none⟩)]⟩).deleteCalls ∧
     (cleanupExpiredFunctions envNew now
        ⟨[(fid, ⟨some 1, none, none⟩)]⟩).state.registered.lookup fid =
          some ⟨some 1, none, none⟩) := by
  have hsd1 : shouldDelete now ⟨some 1, none, none⟩ infoOld = true := by
    simp [shouldDelete, optTruthy]
    omega
  have hsd2 : shouldDelete now ⟨some 1, none, none⟩ infoNew = false := by
    simp [shouldDelete, optTruthy]
    omega
  constructor
  · simp [cleanupExpiredFunctions, cleanupStep, shouldDeleteFunction, hgetOld, hsd1,
          hdelOld, unregisterFunction]
  · simp [cleanupExpiredFunctions, cleanupStep, shouldDeleteFunction, hgetNew, hsd2,
          List.lookup]

theorem C3_ttl_eviction_witness :
    ("f" ∈ (cleanupExpiredFunctions ⟨fun _ => .found ⟨0, none, none⟩, fun _ => true⟩ 120
        ⟨[("f", ⟨some 1, none, none⟩)]⟩).deleted ∧
     "f" ∈ (cleanupExpiredFunctions ⟨fun _ => .found ⟨0, none, none⟩, fun _ => true⟩ 120
        ⟨[("f", ⟨some 1, none, none⟩)]⟩).deleteCalls ∧
     (cleanupExpiredFunctions ⟨fun _ => .found ⟨0, none, none⟩, fun _ => true⟩ 120
        ⟨[("f", ⟨some 1, none, none⟩)]⟩).state.registered.lookup "f" = none) ∧
    ("f" ∉ (cleanupExpiredFunctions ⟨fun _ => .found ⟨90, none, none⟩, fun _ => true⟩ 120
        ⟨[("f", ⟨some 1, none, none⟩)]⟩).deleted ∧
     "f" ∉ (cleanupExpiredFunctions ⟨fun _ => .found ⟨90, none, none⟩, fun _ => true⟩ 120
        ⟨[("f", ⟨some 1, none, none⟩)]⟩).deleteCalls ∧
     (cleanupExpiredFunctions ⟨fun _ => .found ⟨90, none, none⟩, fun _ => true⟩ 120
        ⟨[("f", ⟨some 1, none, none⟩)]⟩).state.registered.lookup "f" =
          some ⟨some 1, none, none⟩) :=
  C3_ttl_eviction ⟨fun _ => .found ⟨0, none, none⟩, fun _ => true⟩
    ⟨fun _ => .found ⟨90, none, none⟩, fun _ => true⟩ 120 "f"
    ⟨0, none, none⟩ ⟨90, none, none⟩ rfl rfl rfl rfl rfl

/-- Fold invariant used for claim C5: when the delete call for `fid` always
fails and its metadata fetch never reports not-found, no pass of the cleanup
loop removes `fid` from the registry or adds it to the deleted set. -/
theorem cleanup_foldl_keeps (env : CleanupEnv) (now : Nat) (fid : String)
    (hget : env.get_function fid ≠ FetchResult.notFound)
    (hdel : env.delete_function fid = false) :
    ∀ (items : List (String × CleanupPolicy)) (acc : CleanupOutcome),
      fid ∉ acc.deleted →
      fid ∉ (items.foldl (cleanupStep env now) acc).deleted ∧
      (items.foldl (cleanupStep env now) acc).state.registered.lookup fid =
        acc.state.registered.lookup fid := by
  intro items
  induction items with
  | nil => exact fun acc h => ⟨h, rfl⟩
  | cons item rest ih =>
    intro acc hacc
    have hstep : fid ∉ (cleanupStep env now acc item).deleted ∧
        (cleanupStep env now acc item).state.registered.lookup fid =
          acc.state.registered.lookup fid := by
      by_cases hfe : item.1 = fid
      · cases hg : env.get_function item.1 with
        | found info =>
          cases hb : shouldDelete now item.2 info with
          | false => simp [cleanupStep, shouldDeleteFunction, hg, hb, hacc]
          | true =>
            have hd : env.delete_function item.1 = false := by rw [hfe]; exact hdel
            simp [cleanupStep, shouldDeleteFunction, hg, hb, hd, hacc]
        | notFound => exact absurd (hfe ▸ hg) hget
        | raised => simp [cleanupStep, shouldDeleteFunction, hg, hacc]
      · have hne : fid ≠ item.1 := fun he => hfe he.symm
        cases hg : env.get_function item.1 with
        | found info =>
          cases hb : shouldDelete now item.2 info with
          | false => simp [cleanupStep, shouldDeleteFunction, hg, hb, hacc]
          | true =>
            cases hd : env.delete_function item.1 with
            | true =>
              simp [cleanupStep, shouldDeleteFunction, hg, hb, hd, hacc,
                    unregisterFunction, lookup_filter_ne _ _ _ hne, hne]
            | false => simp [cleanupStep, shouldDeleteFunction, hg, hb, hd, hacc]
        | notFound =>
          simp [cleanupStep, shouldDeleteFunction, hg, hacc, unregisterFunction,
                lookup_filter_ne _ _ _ hne]
        | raised => simp [cleanupStep, shouldDeleteFunction, hg, hacc]
    have hres := ih (cleanupStep env now acc item) hstep.1
    exact ⟨hres.1, hres.2.trans hstep.2⟩

/-- Claim C5: if the remote delete for a registered function whose policy
condition is met fails, `cleanup_expired_functions` neither returns it in the
deleted set nor unregisters it, so it is re-evaluated next cycle. -/
theorem C5_delete_failure (env : CleanupEnv) (now : Nat) (st : CleanupState)
    (fid : String) (policy : CleanupPolicy) (info : FunctionInfo)
    (hreg : st.registered.lookup fid = some policy)
    (hget : env.get_function fid = .found info)
    (_hcond : shouldDelete now policy info = true)
    (hdel : env.delete_function fid = false) :
    fid ∉ (cleanupExpiredFunctions env now st).deleted ∧
    (cleanupExpiredFunctions env now st).state.registered.lookup fid = some policy := by
  have hne : env.get_function fid ≠ FetchResult.notFound := by
    rw [hget]
    intro hc
    cases hc
  have h := cleanup_foldl_keeps env now fid hne hdel st.registered ⟨[], st, []⟩ (by simp)
  exact ⟨h.1, h.2.trans hreg⟩

theorem C5_delete_failure_witness :
    "f" ∉ (cleanupExpiredFunctions ⟨fun _ => .found ⟨0, none, none⟩, fun _ => false⟩ 120
        ⟨[("f", ⟨some 1, none, none⟩)]⟩).deleted ∧
    (cleanupExpiredFunctions ⟨fun _ => .found ⟨0, none, none⟩, fun _ => false⟩ 120
        ⟨[("f", ⟨some 1, none, none⟩)]⟩).state.registered.lookup "f" =
      some ⟨some 1, none, none⟩ :=
  C5_delete_failure ⟨fun _ => .found ⟨0, none, none⟩, fun _ => false⟩ 120
    ⟨[("f", ⟨some 1, none, none⟩)]⟩ "f" ⟨some 1, none, none⟩ ⟨0, none, none⟩
    rfl rfl (by decide) rfl

/-- Case analysis of one cleanup-loop pass: it either only moves the registry
to an unchanged or `item`-unregistered state, or (after a successful fetch and
a satisfied policy) issues the delete call, appending `item` to the delete
calls and, when the call succeeds, to the deleted set. -/
theorem cleanupStep_spec (env : CleanupEnv) (now : Nat) (acc : CleanupOutcome)
    (i1 : String) (i2 : CleanupPolicy) :
    (∃ st, (st = acc.state ∨ st = unregisterFunction acc.state i1) ∧
      cleanupStep env now acc (i1, i2) = { acc with state := st }) ∨
    ((∃ info, env.get_function i1 = .found info) ∧
     ((env.delete_function i1 = true ∧
       cleanupStep env now acc (i1, i2) =
         { deleted := acc.deleted ++ [i1], state := unregisterFunction acc.state i1,
           deleteCalls := acc.deleteCalls ++ [i1] }) ∨
      (env.delete_function i1 = false ∧
       cleanupStep env now acc (i1, i2) =
         { acc with deleteCalls := acc.deleteCalls ++ [i1] }))) := by
  cases hg : env.get_function i1 with
  | found info =>
    cases hb : shouldDelete now i2 info with
    | false =>
      exact Or.inl ⟨acc.state, Or.inl rfl, by simp [cleanupStep, shouldDeleteFunction, hg, hb]⟩
    | true =>
      cases hd : env.delete_function i1 with
      | true =>
        exact Or.inr ⟨⟨info, rfl⟩, Or.inl ⟨rfl,
          by simp [cleanupStep, shouldDeleteFunction, hg, hb, hd]⟩⟩
      | false =>
        exact Or.inr ⟨⟨info, rfl⟩, Or.inr ⟨rfl,
          by simp [cleanupStep, shouldDeleteFunction, hg, hb, hd]⟩⟩
  | notFound =>
    exact Or.inl ⟨unregisterFunction acc.state i1, Or.inr rfl,
      by simp [cleanupStep, shouldDeleteFunction, hg]⟩
  | raised =>
    exact Or.inl ⟨acc.state, Or.inl rfl, by simp [cleanupStep, shouldDeleteFunction, hg]⟩

/-- Fold invariant used for claim C6: when the metadata fetch for `fid`
reports not-found, the cleanup loop never issues a delete call for `fid` and
never adds it to the deleted set. -/
theorem cleanup_foldl_no_delete (env : CleanupEnv) (now : Nat) (fid : String)
    (hget : env.get_function fid = FetchResult.notFound) :
    ∀ (items : List (String × CleanupPolicy)) (acc : CleanupOutcome),
      fid ∉ acc.deleted → fid ∉ acc.deleteCalls →
      fid ∉ (items.foldl (cleanupStep env now) acc).deleted ∧
      fid ∉ (items.foldl (cleanupStep env now) acc).deleteCalls := by
  intro items
  induction items with
  | nil => exact fun acc h1 h2 => ⟨h1, h2⟩
  | cons item rest ih =>
    intro acc h1 h2
    obtain ⟨i1, i2⟩ := item
    have hstep : fid ∉ (cleanupStep env now acc (i1, i2)).deleted ∧
        fid ∉ (cleanupStep env now acc (i1, i2)).deleteCalls := by
      rcases cleanupStep_spec env now acc i1 i2 with ⟨st, _, heq⟩ | ⟨⟨info, hgi⟩, hcase⟩
      · rw [heq]
        exact ⟨h1, h2⟩
      · have hne : fid ≠ i1 := by
          intro he
          rw [← he, hget] at hgi
          cases hgi
        rcases hcase with ⟨_, heq⟩ | ⟨_, heq⟩ <;> rw [heq] <;>
          simp [List.mem_append, h1, h2, hne]
    exact ih (cleanupStep env now acc (i1, i2)) hstep.1 hstep.2

/-- Fold invariant used for claim C6: once `fid` is out of the registry, no
later pass of the cleanup loop puts it back. -/
theorem cleanup_foldl_stays_gone (env : CleanupEnv) (now : Nat) (fid : String) :
    ∀ (items : List (String × CleanupPolicy)) (acc : CleanupOutcome),
      acc.state.registered.lookup fid = none →
      (items.foldl (cleanupStep env now) acc).state.registered.lookup fid = none := by
  intro items
  induction items with
  | nil => exact fun acc h => h
  | cons item rest ih =>
    intro acc h
    obtain ⟨i1, i2⟩ := item
    have hunreg : (unregisterFunction acc.state i1).registered.lookup fid = none := by
      by_cases hfe : fid = i1
      · exact hfe ▸ lookup_filter_self acc.state.registered i1
      · exact (lookup_filter_ne acc.state.registered fid i1 hfe).trans h
    have hstep : (cleanupStep env now acc (i1, i2)).state.registered.lookup fid = none := by
      rcases cleanupStep_spec env now acc i1 i2 with ⟨st, hst | hst, heq⟩ | ⟨_, hcase⟩
      · rw [heq, hst]
        exact h
      · rw [heq, hst]
        exact hunreg
      · rcases hcase with ⟨_, heq⟩ | ⟨_, heq⟩ <;> rw [heq]
        · exact hunreg
        · exact h
    exact ih (cleanupStep env now acc (i1, i2)) hstep

/-- Claim C6: when the metadata fetch for a registered function reports
not-found, `cleanup_expired_functions` removes it from the registry, issues no
delete call for it, does not return it in the deleted set, and goes on
evaluating the remaining functions (shown on a two-function registry). -/
theorem C6_fetch_not_found (env : CleanupEnv) (now : Nat) (st : CleanupState)
    (fid : String) (policy : CleanupPolicy)
    (hreg : st.registered.lookup fid = some policy)
    (hget : env.get_function fid = .notFound) :
    (fid ∉ (cleanupExpiredFunctions env now st).deleted ∧
     fid ∉ (cleanupExpiredFunctions env now st).deleteCalls ∧
     (cleanupExpiredFunctions env now st).state.registered.lookup fid = none) ∧
    (∀ (g : String) (q : CleanupPolicy) (info : FunctionInfo),
      g ≠ fid → env.get_function g = .found info → shouldDelete now q info = true →
      env.delete_function g = true →
      g ∈ (cleanupExpiredFunctions env now ⟨[(fid, policy), (g, q)]⟩).deleted) := by
  constructor
  · have hnd := cleanup_foldl_no_delete env now fid hget st.registered ⟨[], st, []⟩
      (by simp) (by simp)
    refine ⟨hnd.1, hnd.2, ?_⟩
    obtain ⟨pre, suf, hsplit⟩ := List.append_of_mem (mem_of_lookup_eq_some _ _ _ hreg)
    unfold cleanupExpiredFunctions
    rw [hsplit, List.foldl_append, List.foldl_cons]
    apply cleanup_foldl_stays_gone
    set acc1 := pre.foldl (cleanupStep env now) ⟨[], st, []⟩ with hacc1
    simp [cleanupStep, shouldDeleteFunction, hget, unregisterFunction, lookup_filter_self]
  · intro g q info hne hg hsd hdel
    simp [cleanupExpiredFunctions, cleanupStep, shouldDeleteFunction, hget, hg, hsd, hdel]

theorem C6_fetch_not_found_witness :
    (("gone" ∉ (cleanupExpiredFunctions
        ⟨fun f => if f = "gone" then .notFound else .found ⟨0, none, none⟩, fun _ => true⟩
        120 ⟨[("gone", ⟨some 1, none, none⟩), ("live", ⟨some 1, none, none⟩)]⟩).deleted ∧
      "gone" ∉ (cleanupExpiredFunctions
        ⟨fun f => if f = "gone" then .notFound else .found ⟨0, none, none⟩, fun _ => true⟩
        120 ⟨[("gone", ⟨some 1, none, none⟩), ("live", ⟨some 1, none, none⟩)]⟩).deleteCalls ∧
      (cleanupExpiredFunctions
        ⟨fun f => if f = "gone" then .notFound else .found ⟨0, none, none⟩, fun _ => true⟩
        120 ⟨[("gone", ⟨some 1, none, none⟩),
              ("live", ⟨some 1, none, none⟩)]⟩).state.registered.lookup "gone" = none) ∧
     (∀ (g : String) (q : CleanupPolicy) (info : FunctionInfo),
       g ≠ "gone" →
       (⟨fun f => if f = "gone" then .notFound else .found ⟨0, none, none⟩,
         fun _ => true⟩ : CleanupEnv).get_function g = .found info →
       shouldDelete 120 q info = true →
       (⟨fun f => if f = "gone" then .notFound else .found ⟨0, none, none⟩,
         fun _ => true⟩ : CleanupEnv).delete_function g = true →
       g ∈ (cleanupExpiredFunctions
         ⟨fun f => if f = "gone" then .notFound else .found ⟨0, none, none⟩, fun _ => true⟩
         120 ⟨[("gone", ⟨some 1, none, none⟩), (g, q)]⟩).deleted)) ∧
    "live" ∈ (cleanupExpiredFunctions
        ⟨fun f => if f = "gone" then .notFound else .found ⟨0, none, none⟩, fun _ => true⟩
        120 ⟨[("gone", ⟨some 1, none, none⟩), ("live", ⟨some 1, none, none⟩)]⟩).deleted := by
  have h := C6_fetch_not_found
    ⟨fun f => if f = "gone" then .notFound else .found ⟨0, none, none⟩, fun _ => true⟩
    120 ⟨[("gone", ⟨some 1, none, none⟩), ("live", ⟨some 1, none, none⟩)]⟩
    "gone" ⟨some 1, none, none⟩ rfl rfl
  exact ⟨h, h.2 "live" ⟨some 1, none, none⟩ ⟨0, none, none⟩ (by decide) rfl (by decide) rfl⟩

/-- Computation rule for `Except.bind` on a success. -/
theorem exceptBind_ok {α β : Type} (a : α) (f : α → Except PyExc β) :
    Except.bind (Except.ok a) f = f a := rfl

/-- Computation rule for `Except.bind` on an error. -/
theorem exceptBind_error {α β : Type} (e : PyExc) (f : α → Except PyExc β) :
    Except.bind (Except.error e : Except PyExc α) f = Except.error e := rfl

/-- Overwriting an existing key in place makes it read back the new value. -/
theorem lookup_map_set (t : List (String × JVal)) (k : String) (v : JVal)
    (h : (t.lookup k).isSome = true) :
    (t.map (fun p => if p.1 == k then (k, v) else p)).lookup k = some v := by
  induction t with
  | nil => simp at h
  | cons a t ih =>
    obtain ⟨a1, a2⟩ := a
    rw [List.map_cons]
    by_cases hk : a1 = k
    · have h1 : (((a1, a2) : String × JVal).1 == k) = true := by simpa using hk
      rw [if_pos h1]
      simp [List.lookup]
    · have h1 : (((a1, a2) : String × JVal).1 == k) = false := by simpa using hk
      rw [if_neg (by simp [h1])]
      have hk2 : (k == a1) = false := by simpa using fun he => hk he.symm
      simp only [List.lookup, hk2] at h ⊢
      exact ih h

/-- Appending a fresh key makes it read back the new value. -/
theorem lookup_append_missing (t : List (String × JVal)) (k : String) (v : JVal)
    (h : t.lookup k = none) :
    (t ++ [(k, v)]).lookup k = some v := by
  induction t with
  | nil => simp [List.lookup]
  | cons a t ih =>
    obtain ⟨a1, a2⟩ := a
    by_cases hk : k = a1
    · simp [List.lookup, show (k == a1) = true by simpa using hk] at h
    · have hk2 : (k == a1) = false := by simpa using hk
      simp only [List.lookup, hk2] at h
      simp only [List.cons_append, List.lookup, hk2]
      exact ih h

/-- Writing a key into a Python dict makes that key read back the new value. -/
theorem lookup_dictSet_self (d : List (String × JVal)) (k : String) (v : JVal) :
    (dictSet d k v).lookup k = some v := by
  unfold dictSet
  by_cases h : (d.lookup k).isSome
  · rw [if_pos h]
    exact lookup_map_set d k v h
  · rw [if_neg h]
    exact lookup_append_missing d k v (Option.not_isSome_iff_eq_none.mp h)

/-- On the success path, `finishSelect` returns the tool input with the
caller's workspace injected. -/
theorem finishSelect_ok_shape (rd : JVal) (wid : String) (name : String)
    (params : List (String × JVal))
    (h : finishSelect rd wid = .ok (name, params))
    (hreg : toolNames.contains name = true) :
    ∃ ti, params = dictSet ti "workspace_id" (JVal.str wid) := by
  have herr : name ≠ "error" := by
    intro he
    rw [he] at hreg
    simp [toolNames, toolsDict, TOOL_REGISTRY, Tool.name] at hreg
  unfold finishSelect at h
  cases htn : subscript rd "tool_name" with
  | error e => rw [htn, exceptBind_error] at h; cases h
  | ok tn =>
    rw [htn, exceptBind_ok] at h
    cases hti : subscript rd "tool_input" with
    | error e => rw [hti, exceptBind_error] at h; cases h
    | ok ti =>
      rw [hti, exceptBind_ok] at h
      cases tn with
      | str n =>
        dsimp only at h
        by_cases hl : (toolsDict.lookup n).isSome
        · rw [if_pos hl] at h
          cases ti with
          | obj tio =>
            injection h with h1
            injection h1 with h1a h1b
            exact ⟨tio, h1b.symm⟩
          | null => cases h
          | bool b => cases h
          | num m => cases h
          | str s => cases h
          | arr xs => cases h
        · rw [if_neg hl] at h
          injection h with h1
          injection h1 with h1a h1b
          exact absurd h1a.symm herr
      | null => dsimp only at h; injection h with h1; injection h1 with h1a _; exact absurd h1a.symm herr
      | bool b => dsimp only at h; injection h with h1; injection h1 with h1a _; exact absurd h1a.symm herr
      | num m => dsimp only at h; injection h with h1; injection h1 with h1a _; exact absurd h1a.symm herr
      | arr xs => dsimp only at h; cases h
      | obj fs => dsimp only at h; cases h

/-- On the success path, `selectToolBody` returns the tool input with the
caller's workspace injected. -/
theorem selectToolBody_ok_shape (env : SelectEnv) (resp : LLMReply) (wid : String)
    (name : String) (params : List (String × JVal))
    (h : selectToolBody env resp wid = .ok (name, params))
    (hreg : toolNames.contains name = true) :
    ∃ ti, params = dictSet ti "workspace_id" (JVal.str wid) := by
  have herr : name ≠ "error" := by
    intro he
    rw [he] at hreg
    simp [toolNames, toolsDict, TOOL_REGISTRY, Tool.name] at hreg
  cases resp with
  | str s =>
    unfold selectToolBody at h
    dsimp only at h
    cases hj : jsonLoadsE env s with
    | error e => rw [hj, exceptBind_error] at h; cases h
    | ok rd =>
      rw [hj, exceptBind_ok] at h
      exact finishSelect_ok_shape rd wid name params h hreg
  | dict d =>
    unfold selectToolBody at h
    dsimp only at h
    cases he : d.lookup "error" with
    | some errv =>
      rw [he] at h
      injection h with h1
      injection h1 with h1a _
      exact absurd h1a.symm herr
    | none =>
      rw [he] at h
      cases hr : d.lookup "response" with
      | none =>
        rw [hr] at h
        rw [exceptBind_ok] at h
        exact finishSelect_ok_shape (.obj d) wid name params h hreg
      | some rv =>
        rw [hr] at h
        cases rv with
        | str s =>
          dsimp only at h
          cases hj : jsonLoadsE env s with
          | error e => rw [hj, exceptBind_error] at h; cases h
          | ok rd =>
            rw [hj, exceptBind_ok] at h
            exact finishSelect_ok_shape rd wid name params h hreg
        | null => rw [exceptBind_error] at h; cases h
        | bool b => rw [exceptBind_error] at h; cases h
        | num m => rw [exceptBind_error] at h; cases h
        | arr xs => rw [exceptBind_error] at h; cases h
        | obj fs => rw [exceptBind_error] at h; cases h

/-- Claim C1: whenever tool selection resolves successfully (the returned name
is a registry key), the returned parameters carry the caller's authenticated
`workspace_id`, whether the model's `tool_input` contained a different
`workspace_id`, the same one, or none: the model output never supplies the
workspace scope. -/
theorem C1_workspace_injection (env : SelectEnv) (resp : LLMReply) (wid : String)
    (name : String) (params : List (String × JVal))
    (hsel : selectTool env resp wid = (name, params))
    (hreg : toolNames.contains name = true) :
    params.lookup "workspace_id" = some (JVal.str wid) := by
  have herr : name ≠ "error" := by
    intro he
    rw [he] at hreg
    simp [toolNames, toolsDict, TOOL_REGISTRY, Tool.name] at hreg
  unfold selectTool at hsel
  cases hb : selectToolBody env resp wid with
  | ok r =>
    rw [hb] at hsel
    dsimp only at hsel
    obtain ⟨ti, hp⟩ := selectToolBody_ok_shape env resp wid name params
      (by rw [hb, hsel]) hreg
    rw [hp]
    exact lookup_dictSet_self ti "workspace_id" (JVal.str wid)
  | error e =>
    rw [hb] at hsel
    cases e with
    | jsonDecode =>
      dsimp only at hsel
      injection hsel with h1 _
      exact absurd h1.symm herr
    | keyError k =>
      dsimp only at hsel
      injection hsel with h1 _
      exact absurd h1.symm herr
    | typeError =>
      dsimp only at hsel
      injection hsel with h1 _
      exact absurd h1.symm herr
    | attributeError =>
      dsimp only at hsel
      injection hsel with h1 _
      exact absurd h1.symm herr

theorem C1_workspace_injection_witness :
    (selectTool ⟨fun _ => none⟩
      (.dict [("tool_name", .str "get_kubernetes_nodes"),
              ("tool_input", .obj [("workspace_id", .str "ws-evil")])]) "ws-1").2.lookup
      "workspace_id" = some (JVal.str "ws-1") :=
  C1_workspace_injection ⟨fun _ => none⟩
    (.dict [("tool_name", .str "get_kubernetes_nodes"),
            ("tool_input", .obj [("workspace_id", .str "ws-evil")])]) "ws-1"
    "get_kubernetes_nodes"
    [("workspace_id", .str "ws-1")] rfl rfl

/-- Claim C7 (refuted as stated; the amended claim holds): a JSON array or
object `tool_name` is unhashable, so `tool_name not in self.tools` raises
`TypeError` and the generic handler returns a detail without the valid-name
list — exhibited here on such a reply, where the selection detail has no
`available_tools` field and carries the generic `TypeError` tag instead. -/
theorem C7_unknown_action_counterexample :
    (selectTool ⟨fun _ => none⟩
      (.dict [("tool_name", .arr []), ("tool_input", .obj [])]) "ws-1").2.lookup
      "available_tools" = none ∧
    (selectTool ⟨fun _ => none⟩
      (.dict [("tool_name", .arr []), ("tool_input", .obj [])]) "ws-1").2.lookup
      "type" = some (JVal.str "TypeError") :=
  ⟨rfl, rfl⟩

/-- Claim C7 as amended: when a parsed model reply carries a hashable
`tool_name` (string, number, boolean or null) that is not a registry key,
tool selection resolves to the unknown-action failure tuple whose detail
carries the complete list of valid registered action names. -/
theorem C7_unknown_action_detail (rd : JVal) (wid : String) (tn ti : JVal)
    (htn : subscript rd "tool_name" = .ok tn)
    (hti : subscript rd "tool_input" = .ok ti)
    (hhash : pyHashable tn = true)
    (hunk : ∀ s, tn = JVal.str s → toolsDict.lookup s = none) :
    finishSelect rd wid = .ok ("error", invalidToolDetail tn) ∧
    (invalidToolDetail tn).lookup "available_tools" =
      some (JVal.arr (toolNames.map JVal.str)) := by
  refine ⟨?_, by simp [invalidToolDetail, List.lookup]⟩
  unfold finishSelect
  rw [htn, exceptBind_ok, hti, exceptBind_ok]
  cases tn with
  | str n =>
    dsimp only
    rw [if_neg (by simp [hunk n rfl])]
  | null => rfl
  | bool b => rfl
  | num m => rfl
  | arr xs => simp [pyHashable] at hhash
  | obj fs => simp [pyHashable] at hhash

theorem C7_unknown_action_detail_witness :
    finishSelect (.obj [("tool_name", .str "make_coffee"), ("tool_input", .obj [])])
        "ws-1" = .ok ("error", invalidToolDetail (.str "make_coffee")) ∧
    (invalidToolDetail (.str "make_coffee")).lookup "available_tools" =
      some (JVal.arr (toolNames.map JVal.str)) :=
  C7_unknown_action_detail (.obj [("tool_name", .str "make_coffee"), ("tool_input", .obj [])])
    "ws-1" (.str "make_coffee") (.obj []) rfl rfl rfl
    (by intro s hs; cases hs; rfl)

/-- Claim C9 (refuted; code bug): `run` is not raise-free. When a selected
tool's cluster call comes back non-2xx, the tool's own `HTTPStatusError`
handler evaluates `e.response.json().get("error", ...)`; a non-object JSON
body raises `AttributeError` and a non-JSON body raises `JSONDecodeError`,
both from inside the handler, uncaught by the sibling `except Exception`,
and `run` has no `try` around `tool.use` — so the exception escapes `run`.
The third conjunct shows the same request with a JSON-object error body is
handled and recovered into the caller-facing upstream-error string. -/
theorem C9_executor_handler_raises :
    (run ⟨fun _ => none⟩ (fun _ => .httpStatusError 500 (some (JVal.arr [])))
      (.dict [("tool_name", .str "scale_deployment"),
              ("tool_input", .obj [("deployment_name", .str "api"),
                                   ("replicas", .num 3)])]) "ws-1" =
      .error .attributeError) ∧
    (run ⟨fun _ => none⟩ (fun _ => .httpStatusError 500 none)
      (.dict [("tool_name", .str "query_logs"), ("tool_input", .obj [])]) "ws-1" =
      .error .jsonDecode) ∧
    (run ⟨fun _ => none⟩
      (fun _ => .httpStatusError 500 (some (JVal.obj [("error", .str "boom")])))
      (.dict [("tool_name", .str "scale_deployment"),
              ("tool_input", .obj [("deployment_name", .str "api"),
                                   ("replicas", .num 3)])]) "ws-1" =
      .ok ("Error: Could not scale deployment. The API returned a 500 status: boom",
           [ApiCall.scaleDeployment "ws-1" "api" 3])) :=
  ⟨rfl, rfl, rfl⟩

/-- Claim C10: every resolver failure is signalled by the sentinel name
`"error"`, which `run` rejects with its generic registry check before reading
the detail payload, so every failure kind collapses to the identical caller
string `"Error: The AI selected an invalid tool ('error')."` with no tool
executed. -/
theorem C10_uniform_failure_string (senv : SelectEnv) (http : ApiCall → HttpOutcome)
    (resp : LLMReply) (wid : String)
    (hfail : (selectTool senv resp wid).1 = "error") :
    run senv http resp wid =
      .ok ("Error: The AI selected an invalid tool (\x27error\x27).", []) := by
  unfold run
  dsimp only
  rw [hfail]
  rw [if_pos (by simp [toolNames, toolsDict, TOOL_REGISTRY, Tool.name])]
  rfl

theorem C10_uniform_failure_string_witness :
    run ⟨fun _ => none⟩ (fun _ => .exc) (.str "This is not JSON.") "ws-1" =
      .ok ("Error: The AI selected an invalid tool (\x27error\x27).", []) :=
  C10_uniform_failure_string ⟨fun _ => none⟩ (fun _ => .exc) (.str "This is not JSON.")
    "ws-1" rfl

/-- Claim C8: when the resolved parameters fail the chosen tool's pydantic
input schema, `run` returns the invalid-input failure string and issues no
cluster-API call at all. -/
theorem C8_invalid_input_no_call (senv : SelectEnv) (http : ApiCall → HttpOutcome)
    (resp : LLMReply) (wid : String) (name : String) (params : List (String × JVal))
    (tool : Tool) (cls : InputModelClass)
    (hsel : selectTool senv resp wid = (name, params))
    (htool : toolsDict.lookup name = some tool)
    (hcls : tool_input_models.lookup tool.name = some cls)
    (hval : constructInput cls params = none) :
    run senv http resp wid =
      .ok ("Error: Invalid input for tool \x27" ++ tool.name ++ "\x27: " ++
           validationErrorText, []) := by
  have hmem : name ∈ toolNames :=
    List.mem_map.mpr ⟨(name, tool), mem_of_lookup_eq_some _ _ _ htool, rfl⟩
  unfold run
  dsimp only
  rw [hsel]
  dsimp only
  rw [if_neg (by simpa using hmem)]
  rw [htool]
  dsimp only
  rw [hcls]
  dsimp only
  rw [hval]

theorem C8_invalid_input_no_call_witness :
    run ⟨fun _ => none⟩ (fun _ => .exc)
      (.dict [("tool_name", .str "scale_deployment"), ("tool_input", .obj [])]) "ws-1" =
      .ok ("Error: Invalid input for tool \x27" ++ Tool.scaleDeployment.name ++ "\x27: " ++
           validationErrorText, []) :=
  C8_invalid_input_no_call ⟨fun _ => none⟩ (fun _ => .exc)
    (.dict [("tool_name", .str "scale_deployment"), ("tool_input", .obj [])]) "ws-1"
    "scale_deployment" [("workspace_id", .str "ws-1")] Tool.scaleDeployment
    InputModelClass.scaleClass rfl rfl rfl rfl

/-- Claim C2 (refuted; code bug): on a 2xx log-query response,
`LogQueryingTool.use` produces the formatted summary only for a bare
top-level array; the wrapper object with `logs` and `total_count` fields that the
repository's own tests feed it makes the loop iterate the wrapper's string
keys, raise `AttributeError` on `.get`, and return the generic unexpected-error
string instead of a summary. -/
theorem C2_wrapper_shape_bug :
    ((logQueryUse (fun _ => .success (JVal.arr
        [JVal.obj [("timestamp", .str "t1"), ("level", .str "ERROR"),
                   ("message", .str "m1")]]))
      ⟨"ws-1", none, none, none, none, 100⟩).1 =
      Except.ok "Found 1 log entries:\n- [t1] [ERROR] m1") ∧
    ((logQueryUse (fun _ => .success (JVal.obj
        [("logs", JVal.arr
          [JVal.obj [("timestamp", .str "t1"), ("level", .str "ERROR"),
                     ("message", .str "m1")]]),
         ("total_count", JVal.num 1)]))
      ⟨"ws-1", none, none, none, none, 100⟩).1 =
      Except.ok ("Error: An unexpected error occurred while querying logs: " ++
        attributeErrorText)) := by
  exact ⟨rfl, rfl⟩
